import Mathlib

/-!
Verification development for the inventory analytics engine
(`src/services/analytics.ts`).

The TypeScript code is shallowly embedded:
* dates are modelled as integer day indices (the code normalises every
  timestamp to a calendar-day key before any comparison or grouping that
  matters here);
* JavaScript numbers are modelled as exact rationals (`ℚ`); the code path
  `Math.sqrt` is modelled by `Real.sqrt`, so the statistical core lives
  in `ℝ`.  Because exact arithmetic never produces a non-finite value,
  the defensive `Number.isFinite` fallback of the code is dead in the
  model and is omitted;
* `Math.round` is round-half-up, which is exactly Mathlib round, namely
  `⌊x + 1/2⌋`;
* JavaScript stable sorts are modelled with `List.insertionSort`; every
  statement proved below is insensitive to the order of ties;
* fields of output records that only carry wall-clock strings
  (`anomalyId`, `detectedAt`, free-text `description`) are omitted; the
  transaction type that the code embeds in the description string is
  kept as an explicit field.
-/

namespace AgentInv

/-- Transaction type of an inventory transaction (code: `trxType: ISSUE | RECEIPT`). -/
inductive TrxType
  | ISSUE
  | RECEIPT
deriving DecidableEq

/-- An inventory transaction (interface `InventoryTransaction`); `trxDate`
is an integer day index. -/
structure Trx where
  trxId : String
  trxDate : ℤ
  warehouseId : String
  productId : String
  trxType : TrxType
  qty : ℚ
  signedQty : ℚ
  refType : String
  refId : String
deriving DecidableEq

/-- An inventory balance row (interface `InventoryBalance`, the fields the
engine reads). -/
structure Balance where
  warehouseId : String
  productId : String
  qtyOnHand : ℚ
  safetyStock : ℚ
deriving DecidableEq

/-- Safety-stock policy configuration with the defaults of
`autoAdjustSafetyStock`. -/
structure SafetyStockPolicy where
  serviceLevel : ℚ := 95 / 100
  leadTimeDays : ℚ := 7
  maxChangePercent : ℚ := 20
  roundToPack : Option ℚ := none
  minSafetyStock : ℚ := 0
deriving DecidableEq

/-! ### Safety Stock Policy Engine (`autoAdjustSafetyStock`) -/

/-- The z-score table of `autoAdjustSafetyStock` (zero for a non-key,
mirroring the undefined lookup that the code guards with `|| 1.6449`). -/
def zTable (k : ℚ) : ℚ :=
  if k = 9 / 10 then 12816 / 10000
  else if k = 95 / 100 then 16449 / 10000
  else if k = 975 / 1000 then 196 / 100
  else if k = 99 / 100 then 23263 / 10000
  else 0

/-- Keys of the z-table in the iteration order of `Object.keys`. -/
def zKeys : List ℚ := [9 / 10, 95 / 100, 975 / 1000, 99 / 100]

/-- Nearest z-table key to the requested service level (the `reduce`
with seed `0.95`). -/
def zNearest (s : ℚ) : ℚ :=
  zKeys.foldl (fun prev curr => if |curr - s| < |prev - s| then curr else prev) (95 / 100)

/-- Chosen z-score: table value at the nearest key, with the code fallback
`|| 1.6449`. -/
def zOf (s : ℚ) : ℚ :=
  if zTable (zNearest s) = 0 then 16449 / 10000 else zTable (zNearest s)

/-- Day keys of the 30-day window ending today (the `dates` array). -/
def windowDates (today : ℤ) : List ℤ :=
  (List.range 30).map (fun (i : ℕ) => today - 29 + (i : ℤ))

/-- Total ISSUE quantity of one product/warehouse on one day (the
`trxByKey` sum). -/
def issueQtyOn (trxs : List Trx) (p w : String) (d : ℤ) : ℚ :=
  ((trxs.filter (fun t =>
      t.trxType == TrxType.ISSUE && t.productId == p && t.warehouseId == w &&
        t.trxDate == d)).map (·.qty)).sum

/-- The zero-filled 30-day daily ISSUE series of a balance (the `daily`
array). -/
def dailySeries (trxs : List Trx) (today : ℤ) (p w : String) : List ℚ :=
  (windowDates today).map (issueQtyOn trxs p w)

/-- Ascending sort of a series (`[...daily].sort((a, b) => a - b)`). -/
def sortQ (l : List ℚ) : List ℚ :=
  l.insertionSort (· ≤ ·)

/-- The 95th-percentile value by sorted position,
`sorted[Math.floor(0.95 * (sorted.length - 1))] || 0`. -/
def p95Of (l : List ℚ) : ℚ :=
  (sortQ l).getD (⌊(95 / 100 : ℚ) * ((l.length : ℚ) - 1)⌋).toNat 0

/-- The daily series clamped at its 95th percentile (the `clamped` array). -/
def clampedSeries (trxs : List Trx) (today : ℤ) (p w : String) : List ℚ :=
  (dailySeries trxs today p w).map (fun v => min v (p95Of (dailySeries trxs today p w)))

/-- Mean with the code guard `/(length || 1)`. -/
def meanOf (l : List ℚ) : ℚ :=
  l.sum / (if l.length = 0 then 1 else (l.length : ℚ))

/-- Sample variance with the code guard `/ Math.max(1, length - 1)`. -/
def varOf (l : List ℚ) : ℚ :=
  (l.map (fun v => (v - meanOf l) * (v - meanOf l))).sum / max 1 ((l.length : ℚ) - 1)

/-- Sample variance of the clamped daily series of a balance. -/
def varDaily (trxs : List Trx) (today : ℤ) (p w : String) : ℚ :=
  varOf (clampedSeries trxs today p w)

/-- Pre-cap recommendation rounded from the statistical sizing,
`Math.round(z * sigmaLT)` with `sigmaLT = stdDaily * sqrt(max 1 leadTimeDays)`. -/
noncomputable def preRound (trxs : List Trx) (today : ℤ) (pol : SafetyStockPolicy)
    (p w : String) : ℤ :=
  round ((zOf pol.serviceLevel : ℝ) *
    (Real.sqrt ((varDaily trxs today p w : ℚ) : ℝ) *
      Real.sqrt (max 1 (pol.leadTimeDays : ℝ))))

/-- Pre-cap recommendation, `Math.max(minSafetyStock, Math.round(z * sigmaLT))`. -/
noncomputable def preRec (trxs : List Trx) (today : ℤ) (pol : SafetyStockPolicy)
    (p w : String) : ℚ :=
  max pol.minSafetyStock ((preRound trxs today pol p w : ℤ) : ℚ)

/-- The change cap relative to the current safety stock (the
`maxChangePercent > 0` block). -/
def capStep (pol : SafetyStockPolicy) (current r : ℚ) : ℚ :=
  if 0 < pol.maxChangePercent then
    max (min r ((round (current * (1 + pol.maxChangePercent / 100)) : ℤ) : ℚ))
      ((round (current * (1 - pol.maxChangePercent / 100)) : ℤ) : ℚ)
  else r

/-- Pack rounding (the `roundToPack && roundToPack > 0` block):
round to the nearest multiple, minimum one pack. -/
def packStep (pol : SafetyStockPolicy) (r : ℚ) : ℚ :=
  match pol.roundToPack with
  | none => r
  | some k => if 0 < k then ((max 1 (round (r / k)) : ℤ) : ℚ) * k else r

/-- Recommended safety stock for one balance: statistical sizing, then
change cap, then pack rounding.  The `Number.isFinite` fallback of the
code is dead under exact arithmetic and is omitted. -/
noncomputable def recommendedFor (trxs : List Trx) (today : ℤ) (pol : SafetyStockPolicy)
    (p w : String) (current : ℚ) : ℚ :=
  packStep pol (capStep pol current (preRec trxs today pol p w))

/-- Write-back of one balance inside the per-warehouse loop: the store is
patched only when the recommendation differs from the current value. -/
noncomputable def updateOne (trxs : List Trx) (today : ℤ) (pol : SafetyStockPolicy)
    (w : String) (b : Balance) : Balance :=
  if b.warehouseId = w then
    if recommendedFor trxs today pol b.productId b.warehouseId b.safetyStock ≠ b.safetyStock then
      { b with safetyStock := recommendedFor trxs today pol b.productId b.warehouseId b.safetyStock }
    else b
  else b

/-- Balance snapshot after one engine run over warehouse `w` (the
sequence of `updateInventoryBalance` write-backs). -/
noncomputable def writeBack (trxs : List Trx) (today : ℤ) (pol : SafetyStockPolicy)
    (w : String) (balances : List Balance) : List Balance :=
  balances.map (updateOne trxs today pol w)

/-- The `appliedCount` of one engine run over warehouse `w`: the number of
target balances whose recommendation differs from their current value. -/
noncomputable def appliedCountFor (trxs : List Trx) (today : ℤ) (pol : SafetyStockPolicy)
    (w : String) (balances : List Balance) : ℕ :=
  (balances.filter (fun b => b.warehouseId == w)).countP
    (fun b => decide (recommendedFor trxs today pol b.productId b.warehouseId b.safetyStock ≠ b.safetyStock))

/-! ### Anomaly Detector (`detectUnusualTransactions`) -/

/-- Severity levels of an anomaly. -/
inductive Severity
  | critical
  | high
  | medium
  | low
deriving DecidableEq

/-- Probable-cause labels of the root-cause heuristic. -/
inductive Cause
  | demand_spike
  | receipt_delay
  | duplicate_entry
  | process_change
  | data_error
  | unknown
deriving DecidableEq

/-- An unusual-transaction anomaly (interface `AnomalyItem`); wall-clock
string fields are omitted, and the transaction type the code embeds in
the description string is kept explicitly. -/
structure Anomaly where
  productId : String
  warehouseId : String
  trxType : TrxType
  severity : Severity
  changePercentage : ℚ
  baselineValue : ℚ
  currentValue : ℚ
  probableCause : Cause
deriving DecidableEq

/-- The recent window: transactions of the last `L` days (`trxDate >= cutoff`). -/
def recentWindow (trxs : List Trx) (today : ℤ) (L : ℕ) : List Trx :=
  trxs.filter (fun t => decide (today - (L : ℤ) ≤ t.trxDate))

/-- The baseline window: the `L` days immediately preceding the recent window. -/
def baselineWindow (trxs : List Trx) (today : ℤ) (L : ℕ) : List Trx :=
  trxs.filter (fun t => decide (today - 2 * (L : ℤ) ≤ t.trxDate ∧ t.trxDate < today - (L : ℤ)))

/-- Transactions of one (product, warehouse, type) tuple (the filter of
`calculateAverage`, reused as `rec` and `base`). -/
def tupleFilter (l : List Trx) (p w : String) (ty : TrxType) : List Trx :=
  l.filter (fun t => t.productId == p && t.warehouseId == w && t.trxType == ty)

/-- Average daily quantity of a tuple in a window (`calculateAverage`):
zero for an empty filter, otherwise the sum divided by `lookbackDays`. -/
def calcAvg (l : List Trx) (p w : String) (ty : TrxType) (L : ℕ) : ℚ :=
  if tupleFilter l p w ty = [] then 0
  else ((tupleFilter l p w ty).map (·.qty)).sum / (L : ℚ)

/-- Severity by absolute change percentage (the assignment chain that
starts from the initial value `low`). -/
def severityOf (chg : ℚ) : Severity :=
  if 300 ≤ |chg| then Severity.critical
  else if 200 ≤ |chg| then Severity.high
  else if 150 ≤ |chg| then Severity.medium
  else Severity.low

/-- Duplicate-detection key `refType|refId|productId|trxType`. -/
def dupKeyOf (t : Trx) : String × String × String × TrxType :=
  (t.refType, t.refId, t.productId, t.trxType)

/-- Whether some duplicate key occurs more than once in a list (the
`dupMap` check). -/
def hasDupOf (l : List Trx) : Bool :=
  (l.map dupKeyOf).any (fun k => 1 < (l.map dupKeyOf).count k)

/-- Total quantity of a list of transactions on one day (a `groupByDay`
bucket). -/
def dayQtySum (l : List Trx) (d : ℤ) : ℚ :=
  ((l.filter (fun t => t.trxDate == d)).map (·.qty)).sum

/-- The distinct day keys of a list of transactions. -/
def dayKeys (l : List Trx) : List ℤ :=
  (l.map (·.trxDate)).dedup

/-- Maximum daily quantity, `Math.max(0, ...values)`. -/
def maxDailyOf (l : List Trx) : ℚ :=
  (dayKeys l).foldl (fun m d => max m (dayQtySum l d)) 0

/-- Number of active (nonzero) days of a window. -/
def activeDaysOf (l : List Trx) : ℕ :=
  ((dayKeys l).map (dayQtySum l)).countP (fun v => decide (0 < v))

/-- Root-cause heuristic: a strictly ordered chain of predicate checks,
first match wins. -/
def causeFor (recL baseL : List Trx) (ty : TrxType) (chg rAvg thr : ℚ) : Cause :=
  if hasDupOf recL then Cause.duplicate_entry
  else if 5 * max 1 rAvg < maxDailyOf recL then Cause.data_error
  else if ty = TrxType.ISSUE ∧ 0 < chg then Cause.demand_spike
  else if ty = TrxType.RECEIPT ∧ chg < 0 then Cause.receipt_delay
  else if thr ≤ |chg| ∧ 5 ≤ activeDaysOf recL ∧ 5 ≤ activeDaysOf baseL then Cause.process_change
  else Cause.unknown

/-- The loop body of `detectUnusualTransactions` for one
(product, warehouse, type) tuple: skip on zero baseline, emit only when
the absolute change percentage reaches the threshold. -/
def anomalyFor (trxs : List Trx) (today : ℤ) (L : ℕ) (thr : ℚ)
    (key : String × String × TrxType) : Option Anomaly :=
  let p := key.1
  let w := key.2.1
  let ty := key.2.2
  let rAvg := calcAvg (recentWindow trxs today L) p w ty L
  let bAvg := calcAvg (baselineWindow trxs today L) p w ty L
  if bAvg = 0 then none
  else
    let chg := (rAvg - bAvg) / bAvg * 100
    if thr ≤ |chg| then
      some { productId := p, warehouseId := w, trxType := ty,
             severity := severityOf chg, changePercentage := chg,
             baselineValue := bAvg, currentValue := rAvg,
             probableCause := causeFor (tupleFilter (recentWindow trxs today L) p w ty)
               (tupleFilter (baselineWindow trxs today L) p w ty) ty chg rAvg thr }
    else none

/-- Sort rank of a severity (the `severityOrder` record). -/
def sevRank : Severity → ℕ
  | Severity.critical => 0
  | Severity.high => 1
  | Severity.medium => 2
  | Severity.low => 3

/-- The unusual-transaction detector: one candidate per distinct
(product, warehouse, type) tuple of the recent window, emitted anomalies
sorted by severity. -/
def detectUnusualTransactions (trxs : List Trx) (today : ℤ) (L : ℕ) (thr : ℚ) : List Anomaly :=
  ((((recentWindow trxs today L).map (fun t => (t.productId, t.warehouseId, t.trxType))).dedup).filterMap
    (anomalyFor trxs today L thr)).insertionSort (fun a b => sevRank a.severity ≤ sevRank b.severity)

/-! ### Performance Classifier (`getProductPerformance`) -/

/-- A product (interface `Product`, the fields the classifier touches). -/
structure Product where
  productId : String
  sku : String
  name : String
  category : String
  isActive : Bool
deriving DecidableEq

/-- A purchase-order item (interface `PurchaseOrderItem`, the fields the
classifier touches); `createdAt` is an integer day index. -/
structure POItem where
  productId : String
  unitCost : ℚ
  createdAt : ℤ
deriving DecidableEq

/-- BCG quadrant labels. -/
inductive PerfCategory
  | Star
  | CashCow
  | QuestionMark
  | Dog
deriving DecidableEq

/-- One row of the classifier output (interface `ProductPerformanceData`,
warehouse display fields omitted). -/
structure PerfData where
  productId : String
  category : String
  turnoverRate : ℚ
  revenuePotential : ℚ
  totalIssued : ℚ
  averageOnHand : ℚ
  latestUnitCost : ℚ
  performanceCategory : PerfCategory
deriving DecidableEq

/-- Latest unit cost of a product: the unit cost of its most recently
created purchase-order item, `|| 0` when it has none. -/
def latestUnitCostOf (poItems : List POItem) (pid : String) : ℚ :=
  match (poItems.insertionSort (fun a b => b.createdAt ≤ a.createdAt)).find?
      (fun i => i.productId == pid) with
  | some i => i.unitCost
  | none => 0

/-- Category filter test. -/
def catOk (cFil : Option String) (pr : Product) : Bool :=
  match cFil with
  | none => true
  | some c => pr.category == c

/-- Warehouse filter test on a transaction. -/
def whOkTrx (wFil : Option String) (t : Trx) : Bool :=
  match wFil with
  | none => true
  | some w => t.warehouseId == w

/-- Balances restricted by the optional warehouse filter. -/
def filteredBalancesOf (wFil : Option String) (balances : List Balance) : List Balance :=
  match wFil with
  | none => balances
  | some w => balances.filter (fun b => b.warehouseId == w)

/-- Total ISSUE quantity of a product in the window, under the warehouse
filter. -/
def totalIssuedOf (trxs : List Trx) (wFil : Option String) (pid : String)
    (today : ℤ) (days : ℕ) : ℚ :=
  ((trxs.filter (fun t =>
      t.productId == pid && t.trxType == TrxType.ISSUE &&
        decide (today - (days : ℤ) ≤ t.trxDate) && whOkTrx wFil t)).map (·.qty)).sum

/-- The per-product evaluation loop of `getProductPerformance`: category
filter, skip products without matching balances, skip zero average
on-hand; note that the loop ranges over all products, active or not. -/
def perfRawData (trxs : List Trx) (balances : List Balance) (products : List Product)
    (poItems : List POItem) (wFil cFil : Option String) (today : ℤ) (days : ℕ) : List PerfData :=
  products.filterMap (fun pr =>
    if catOk cFil pr then
      let issued := totalIssuedOf trxs wFil pr.productId today days
      let pbs := (filteredBalancesOf wFil balances).filter (fun b => b.productId == pr.productId)
      if pbs = [] then none
      else
        let avg := (pbs.map (·.qtyOnHand)).sum / (pbs.length : ℚ)
        if avg = 0 then none
        else
          some { productId := pr.productId, category := pr.category,
                 turnoverRate := issued / avg,
                 revenuePotential := latestUnitCostOf poItems pr.productId * issued,
                 totalIssued := issued, averageOnHand := avg,
                 latestUnitCost := latestUnitCostOf poItems pr.productId,
                 performanceCategory := PerfCategory.QuestionMark }
    else none)

/-- Median by the element at index `floor(n / 2)` of the sorted array,
zero for an empty set. -/
def medianBy (vals : List ℚ) : ℚ :=
  if vals = [] then 0 else (sortQ vals).getD (vals.length / 2) 0

/-- Quadrant assignment against the two medians. -/
def categoryOf (medT medR : ℚ) (d : PerfData) : PerfCategory :=
  if medT ≤ d.turnoverRate then
    if medR ≤ d.revenuePotential then PerfCategory.Star else PerfCategory.QuestionMark
  else
    if medR ≤ d.revenuePotential then PerfCategory.CashCow else PerfCategory.Dog

/-- The categorized product list of the classifier. -/
def perfProductsOf (trxs : List Trx) (balances : List Balance) (products : List Product)
    (poItems : List POItem) (wFil cFil : Option String) (today : ℤ) (days : ℕ) : List PerfData :=
  let raw := perfRawData trxs balances products poItems wFil cFil today days
  let medT := medianBy (raw.map (·.turnoverRate))
  let medR := medianBy (raw.map (·.revenuePotential))
  raw.map (fun d => { d with performanceCategory := categoryOf medT medR d })

/-- The summary quadrant counts of the classifier. -/
structure PerfSummary where
  stars : ℕ
  cashCows : ℕ
  questionMarks : ℕ
  dogs : ℕ
  medianTurnover : ℚ
  medianRevenue : ℚ
deriving DecidableEq

/-- Summary of one classifier run (quadrant counts and medians). -/
def perfSummaryOf (trxs : List Trx) (balances : List Balance) (products : List Product)
    (poItems : List POItem) (wFil cFil : Option String) (today : ℤ) (days : ℕ) : PerfSummary :=
  let cats := perfProductsOf trxs balances products poItems wFil cFil today days
  let raw := perfRawData trxs balances products poItems wFil cFil today days
  { stars := cats.countP (fun d => d.performanceCategory == PerfCategory.Star),
    cashCows := cats.countP (fun d => d.performanceCategory == PerfCategory.CashCow),
    questionMarks := cats.countP (fun d => d.performanceCategory == PerfCategory.QuestionMark),
    dogs := cats.countP (fun d => d.performanceCategory == PerfCategory.Dog),
    medianTurnover := medianBy (raw.map (·.turnoverRate)),
    medianRevenue := medianBy (raw.map (·.revenuePotential)) }

/-! ### Stockout History Reconstructor (`analyzeStockoutHistory`) -/

/-- The mutable loop state of the backward simulation. -/
structure SimState where
  running : ℚ
  stockoutDays : ℕ
  frequency : ℕ
  lastStockout : Option ℤ
  inStockout : Bool
deriving DecidableEq

/-- One iteration of the backward simulation: reverse the transaction,
drive the two-state machine, then count the step when the reconstructed
quantity is at or below zero. -/
def simStep (s : SimState) (t : Trx) : SimState :=
  let r := s.running - t.signedQty
  let s1 :=
    if r ≤ 0 ∧ s.inStockout = false then
      { s with running := r, frequency := s.frequency + 1,
               lastStockout := some t.trxDate, inStockout := true }
    else if 0 < r ∧ s.inStockout = true then
      { s with running := r, inStockout := false }
    else
      { s with running := r }
  if r ≤ 0 then { s1 with stockoutDays := s1.stockoutDays + 1 } else s1

/-- The lookback-window transactions of one balance in chronological
order (filter, then ascending sort by date). -/
def windowTrxFor (trxs : List Trx) (today : ℤ) (days : ℕ) (b : Balance) : List Trx :=
  (trxs.filter (fun t =>
      t.productId == b.productId && t.warehouseId == b.warehouseId &&
        decide (today - (days : ℤ) ≤ t.trxDate))).insertionSort
    (fun a b => a.trxDate ≤ b.trxDate)

/-- Backward simulation of one balance: the loop walks the chronological
list from its last element to its first, starting at the current
quantity on hand, with the stockout flag initially set only when the
current quantity is exactly zero. -/
def simulateFor (trxs : List Trx) (today : ℤ) (days : ℕ) (b : Balance) : SimState :=
  ((windowTrxFor trxs today days b).reverse).foldl simStep
    { running := b.qtyOnHand, stockoutDays := 0, frequency := 0,
      lastStockout := none, inStockout := decide (b.qtyOnHand = 0) }

/-- The successive reconstructed quantities of the backward walk, one per
processed transaction. -/
def runningSeq (q : ℚ) : List Trx → List ℚ
  | [] => []
  | t :: ts => (q - t.signedQty) :: runningSeq (q - t.signedQty) ts

/-- One reconstructed stockout-history row (interface `StockoutHistoryItem`). -/
structure StockoutItem where
  productId : String
  warehouseId : String
  stockoutDays : ℕ
  frequency : ℕ
  lastStockout : Option ℤ
  currentQty : ℚ
  safetyStock : ℚ
deriving DecidableEq

/-- The per-balance row of the reconstructor: rows with zero frequency
are dropped. -/
def stockoutItemFor (trxs : List Trx) (today : ℤ) (days : ℕ) (b : Balance) :
    Option StockoutItem :=
  let s := simulateFor trxs today days b
  if 0 < s.frequency then
    some { productId := b.productId, warehouseId := b.warehouseId,
           stockoutDays := s.stockoutDays, frequency := s.frequency,
           lastStockout := s.lastStockout, currentQty := b.qtyOnHand,
           safetyStock := b.safetyStock }
  else none

/-- The stockout-history reconstructor: one simulation per balance, rows
with zero frequency dropped, remainder sorted by frequency descending. -/
def analyzeStockoutHistory (trxs : List Trx) (balances : List Balance)
    (today : ℤ) (days : ℕ) : List StockoutItem :=
  (balances.filterMap (stockoutItemFor trxs today days)).insertionSort
    (fun a b => b.frequency ≤ a.frequency)

/-- Modelled from the spec: the number of distinct simulated days on which
the reconstructed running quantity was at or below zero within the
lookback window (spec 4.3 counts days, where the code counter
`stockoutDays` counts processed transactions). -/
def specStockoutDays (trxs : List Trx) (today : ℤ) (days : ℕ) (b : Balance) : ℕ :=
  (((((windowTrxFor trxs today days b).reverse).zip
      (runningSeq b.qtyOnHand ((windowTrxFor trxs today days b).reverse))).filter
    (fun s => decide (s.2 ≤ 0))).map (fun s => s.1.trxDate)).dedup.length

/-- Pack-rounding slack: the pack size when pack rounding is active,
zero otherwise. -/
def packSlack (pol : SafetyStockPolicy) : ℚ :=
  match pol.roundToPack with
  | none => 0
  | some k => if 0 < k then k else 0

/-! ### Lemmas about the Safety Stock Policy Engine -/

lemma zTable_nonneg (k : ℚ) : 0 ≤ zTable k := by
  unfold zTable
  split_ifs <;> norm_num

lemma zOf_pos (s : ℚ) : 0 < zOf s := by
  unfold zOf
  split_ifs with h
  · norm_num
  · exact lt_of_le_of_ne (zTable_nonneg _) (Ne.symm h)

lemma roundMono {α : Type} [LinearOrderedField α] [FloorRing α] {x y : α} (h : x ≤ y) :
    round x ≤ round y := by
  rw [round_eq, round_eq]
  exact Int.floor_le_floor (by linarith)

lemma round_ge_sub_half {α : Type} [LinearOrderedField α] [FloorRing α] (x : α) :
    x - 1 / 2 ≤ round x :=
  le_of_lt (sub_half_lt_round x)

lemma preRound_nonneg (trxs : List Trx) (today : ℤ) (pol : SafetyStockPolicy) (p w : String) :
    0 ≤ preRound trxs today pol p w := by
  unfold preRound
  have hz : (0 : ℝ) ≤ (zOf pol.serviceLevel : ℚ) := by exact_mod_cast (zOf_pos _).le
  have hs : (0 : ℝ) ≤ Real.sqrt ((varDaily trxs today p w : ℚ) : ℝ) *
      Real.sqrt (max 1 (pol.leadTimeDays : ℝ)) :=
    mul_nonneg (Real.sqrt_nonneg _) (Real.sqrt_nonneg _)
  calc (0 : ℤ) = round (0 : ℝ) := round_zero.symm
    _ ≤ _ := roundMono (mul_nonneg hz hs)

lemma preRec_nonneg (trxs : List Trx) (today : ℤ) (pol : SafetyStockPolicy) (p w : String) :
    0 ≤ preRec trxs today pol p w :=
  le_trans (by exact_mod_cast preRound_nonneg trxs today pol p w) (le_max_right _ _)

lemma sortQ_replicate_zero : sortQ (List.replicate 30 (0 : ℚ)) = List.replicate 30 0 := by
  refine List.eq_replicate_iff.mpr ⟨?_, ?_⟩
  · simp [sortQ]
  · intro b hb
    have hb2 : b ∈ List.replicate 30 (0 : ℚ) := by
      simpa [sortQ] using hb
    exact (List.eq_of_mem_replicate hb2)

lemma p95Of_replicate_zero : p95Of (List.replicate 30 (0 : ℚ)) = 0 := by
  unfold p95Of
  rw [sortQ_replicate_zero]
  norm_num [List.getD_eq_getElem?_getD, List.getElem?_replicate]

lemma meanOf_replicate_zero : meanOf (List.replicate 30 (0 : ℚ)) = 0 := by
  simp [meanOf]

lemma varOf_replicate_zero : varOf (List.replicate 30 (0 : ℚ)) = 0 := by
  unfold varOf
  rw [meanOf_replicate_zero, List.map_replicate]
  simp

lemma varDaily_of_replicate (trxs : List Trx) (today : ℤ) (p w : String)
    (h : dailySeries trxs today p w = List.replicate 30 0) :
    varDaily trxs today p w = 0 := by
  unfold varDaily clampedSeries
  rw [h, p95Of_replicate_zero, List.map_replicate]
  simpa using varOf_replicate_zero

lemma preRound_of_var_zero {trxs : List Trx} {today : ℤ} (pol : SafetyStockPolicy)
    {p w : String} (h : varDaily trxs today p w = 0) :
    preRound trxs today pol p w = 0 := by
  unfold preRound
  rw [h]
  simp

lemma recommendedFor_of_var_zero (trxs : List Trx) (today : ℤ) (pol : SafetyStockPolicy)
    (p w : String) (C : ℚ) (h : varDaily trxs today p w = 0) :
    recommendedFor trxs today pol p w C =
      packStep pol (capStep pol C (max pol.minSafetyStock 0)) := by
  unfold recommendedFor preRec
  rw [preRound_of_var_zero pol h]
  norm_num

lemma issueQtyOn_nil (p w : String) (d : ℤ) : issueQtyOn [] p w d = 0 := rfl

lemma dailySeries_nil (today : ℤ) (p w : String) :
    dailySeries [] today p w = List.replicate 30 0 := by
  unfold dailySeries windowDates
  rw [List.map_map]
  have h : (issueQtyOn [] p w ∘ fun i : ℕ => today - 29 + i) = fun _ : ℕ => (0 : ℚ) :=
    funext fun i => rfl
  rw [h]
  simp [List.map_const']

/-! ### Claim C1 -/

/-- C1 (amended): for a balance whose 30-day daily ISSUE series is all
zeros and a nonnegative `minSafetyStock`, the recommendation equals
`minSafetyStock` exactly provided the `maxChangePercent` cap is disabled
and `roundToPack` is unset; the cap (and pack rounding) can move the
final result away from `minSafetyStock`. -/
theorem C1_allzero_collapses_to_min (trxs : List Trx) (today : ℤ) (pol : SafetyStockPolicy)
    (p w : String) (current : ℚ)
    (hall : dailySeries trxs today p w = List.replicate 30 0)
    (hmin : 0 ≤ pol.minSafetyStock)
    (hcap : pol.maxChangePercent ≤ 0)
    (hpack : pol.roundToPack = none) :
    recommendedFor trxs today pol p w current = pol.minSafetyStock := by
  rw [recommendedFor_of_var_zero trxs today pol p w current
    (varDaily_of_replicate trxs today p w hall)]
  unfold packStep capStep
  rw [hpack, if_neg (not_lt.mpr hcap), max_eq_left hmin]

/-- C1 witness: a concrete all-zero snapshot with the cap disabled, where
the recommendation is exactly the configured minimum. -/
theorem C1_witness :
    dailySeries [] 0 "P1" "W1" = List.replicate 30 0 ∧
      (0 : ℚ) ≤ (5 : ℚ) ∧
      recommendedFor [] 0 { maxChangePercent := 0, minSafetyStock := 5 } "P1" "W1" 100 = 5 :=
  ⟨dailySeries_nil 0 "P1" "W1", by norm_num,
    C1_allzero_collapses_to_min [] 0 { maxChangePercent := 0, minSafetyStock := 5 } "P1" "W1" 100
      (dailySeries_nil 0 "P1" "W1") (by norm_num) (by norm_num) rfl⟩

/-- C1 counterexample: with the default policy (cap 20 percent,
minimum 0) and current safety stock 100, an all-zero 30-day ISSUE series
yields recommendation 80, not the claimed `minSafetyStock = 0`: the cap
clamps the collapse toward the current value. -/
theorem C1_counterexample :
    dailySeries [] 0 "P1" "W1" = List.replicate 30 0 ∧
      ({} : SafetyStockPolicy).minSafetyStock = 0 ∧
      recommendedFor [] 0 {} "P1" "W1" 100 = 80 ∧ (80 : ℚ) ≠ 0 := by
  refine ⟨dailySeries_nil 0 "P1" "W1", rfl, ?_, by norm_num⟩
  rw [recommendedFor_of_var_zero [] 0 {} "P1" "W1" 100
    (varDaily_of_replicate [] 0 "P1" "W1" (dailySeries_nil 0 "P1" "W1"))]
  unfold packStep capStep
  norm_num [round_eq]

lemma packStep_none {pol : SafetyStockPolicy} (h : pol.roundToPack = none) (r : ℚ) :
    packStep pol r = r := by
  unfold packStep
  rw [h]

lemma capStep_of_nonpos {pol : SafetyStockPolicy} (h : pol.maxChangePercent ≤ 0)
    (current r : ℚ) : capStep pol current r = r := by
  unfold capStep
  rw [if_neg (not_lt.mpr h)]

/-! ### Claim C3 -/

/-- C3 (amended): the recommendation is at least `minSafetyStock` when the
change cap is disabled and `roundToPack` is unset; the cap (and pack
rounding) can push the final recommendation below `minSafetyStock`. -/
theorem C3_min_bound (trxs : List Trx) (today : ℤ) (pol : SafetyStockPolicy)
    (p w : String) (C : ℚ)
    (hcap : pol.maxChangePercent ≤ 0) (hpack : pol.roundToPack = none) :
    pol.minSafetyStock ≤ recommendedFor trxs today pol p w C := by
  unfold recommendedFor
  rw [packStep_none hpack, capStep_of_nonpos hcap]
  exact le_max_left _ _

/-- C3 witness: a concrete snapshot with the cap disabled, where the bound
holds at minimum 7. -/
theorem C3_witness :
    ({ maxChangePercent := 0, minSafetyStock := 7 } : SafetyStockPolicy).maxChangePercent ≤ 0 ∧
      ({ maxChangePercent := 0, minSafetyStock := 7 } : SafetyStockPolicy).roundToPack = none ∧
      ({ maxChangePercent := 0, minSafetyStock := 7 } : SafetyStockPolicy).minSafetyStock ≤
        recommendedFor [] 0 { maxChangePercent := 0, minSafetyStock := 7 } "P1" "W1" 3 :=
  ⟨by norm_num, rfl,
    C3_min_bound [] 0 { maxChangePercent := 0, minSafetyStock := 7 } "P1" "W1" 3
      (by norm_num) rfl⟩

/-- C3 counterexample: with `minSafetyStock = 50`, the default cap of 20
percent and current safety stock 0, the engine recommends 0, which is
below `minSafetyStock`: the cap is applied after the minimum and can
undo it. -/
theorem C3_counterexample :
    recommendedFor [] 0 { minSafetyStock := 50 } "P1" "W1" 0 = 0 ∧ ¬ ((50 : ℚ) ≤ 0) := by
  refine ⟨?_, by norm_num⟩
  rw [recommendedFor_of_var_zero [] 0 { minSafetyStock := 50 } "P1" "W1" 0
    (varDaily_of_replicate [] 0 "P1" "W1" (dailySeries_nil 0 "P1" "W1"))]
  unfold packStep capStep
  norm_num [round_eq]

/-! ### Claim C2 -/

lemma capStep_nonneg (pol : SafetyStockPolicy) (C r : ℚ) (hC : 0 ≤ C) (hr : 0 ≤ r) :
    0 ≤ capStep pol C r := by
  unfold capStep
  split_ifs with h
  · have harg : (0 : ℚ) ≤ C * (1 + pol.maxChangePercent / 100) := by nlinarith
    have hup : (0 : ℤ) ≤ round (C * (1 + pol.maxChangePercent / 100)) := by
      calc (0 : ℤ) = round (0 : ℚ) := round_zero.symm
        _ ≤ _ := roundMono harg
    exact le_trans (le_min hr (by exact_mod_cast hup)) (le_max_left _ _)
  · exact hr

lemma capStep_bound (pol : SafetyStockPolicy) (C r : ℚ)
    (hp : 0 < pol.maxChangePercent) (hC : 0 ≤ C) :
    |capStep pol C r - C| ≤ pol.maxChangePercent / 100 * C + 1 / 2 := by
  unfold capStep
  rw [if_pos hp]
  have h1 : (round (C * (1 + pol.maxChangePercent / 100)) : ℚ) ≤
      C * (1 + pol.maxChangePercent / 100) + 1 / 2 := by
    exact_mod_cast round_le_add_half (C * (1 + pol.maxChangePercent / 100))
  have h2 : C * (1 - pol.maxChangePercent / 100) - 1 / 2 ≤
      (round (C * (1 - pol.maxChangePercent / 100)) : ℚ) := by
    exact_mod_cast round_ge_sub_half (C * (1 - pol.maxChangePercent / 100))
  have h3 : (round (C * (1 - pol.maxChangePercent / 100)) : ℚ) ≤
      C * (1 - pol.maxChangePercent / 100) + 1 / 2 := by
    exact_mod_cast round_le_add_half (C * (1 - pol.maxChangePercent / 100))
  have hup : max (min r ((round (C * (1 + pol.maxChangePercent / 100)) : ℤ) : ℚ))
      ((round (C * (1 - pol.maxChangePercent / 100)) : ℤ) : ℚ) ≤
      C * (1 + pol.maxChangePercent / 100) + 1 / 2 := by
    apply max_le (le_trans (min_le_right _ _) h1)
    have : C * (1 - pol.maxChangePercent / 100) ≤ C * (1 + pol.maxChangePercent / 100) := by
      nlinarith
    linarith
  have hdn : C * (1 - pol.maxChangePercent / 100) - 1 / 2 ≤
      max (min r ((round (C * (1 + pol.maxChangePercent / 100)) : ℤ) : ℚ))
        ((round (C * (1 - pol.maxChangePercent / 100)) : ℤ) : ℚ) :=
    le_trans h2 (le_max_right _ _)
  rw [abs_le]
  constructor <;> nlinarith

lemma packStep_bound (pol : SafetyStockPolicy) (r : ℚ) (hr : 0 ≤ r) :
    |packStep pol r - r| ≤ packSlack pol := by
  unfold packStep packSlack
  cases hk : pol.roundToPack with
  | none => simp
  | some k =>
    dsimp only
    split_ifs with h
    · by_cases hm : (1 : ℤ) ≤ round (r / k)
      · rw [max_eq_right hm]
        have hk0 : k ≠ 0 := ne_of_gt h
        have hrw : (round (r / k) : ℚ) * k - r = ((round (r / k) : ℚ) - r / k) * k := by
          field_simp
        have habs : |(round (r / k) : ℚ) - r / k| ≤ 1 / 2 := by
          rw [abs_sub_comm]
          exact abs_sub_round (r / k)
        rw [hrw, abs_mul, abs_of_pos h]
        nlinarith [abs_nonneg ((round (r / k) : ℚ) - r / k)]
      · push_neg at hm
        rw [max_eq_left (by omega : round (r / k) ≤ 1)]
        have hm0 : ((round (r / k) : ℤ) : ℚ) ≤ 0 := by exact_mod_cast (by omega : round (r / k) ≤ 0)
        have hhalf : r / k ≤ 1 / 2 := by
          have := round_ge_sub_half (r / k)
          linarith
        have hrk : r ≤ k / 2 := by
          have := (div_le_iff₀ h).mp hhalf
          linarith
        rw [abs_le]
        push_cast
        constructor <;> nlinarith
    · simp

/-- C2 (amended): under an active cap `p = maxChangePercent > 0` and a
nonnegative current value `C`, the recommendation `R` satisfies
`|R − C| ≤ p/100 · max(1, C) + 1/2 + pack`, where `pack` is the pack size
when pack rounding is active and 0 otherwise: integer rounding of the cap
bounds costs up to 1/2, and the minimum-one-pack rule can move `R` a full
pack (not only half a pack) beyond the cap. -/
theorem C2_cap_bound (trxs : List Trx) (today : ℤ) (pol : SafetyStockPolicy)
    (p w : String) (C : ℚ) (hp : 0 < pol.maxChangePercent) (hC : 0 ≤ C) :
    |recommendedFor trxs today pol p w C - C| ≤
      pol.maxChangePercent / 100 * max 1 C + 1 / 2 + packSlack pol := by
  unfold recommendedFor
  have hpre0 : 0 ≤ preRec trxs today pol p w := preRec_nonneg trxs today pol p w
  have hcap0 : 0 ≤ capStep pol C (preRec trxs today pol p w) :=
    capStep_nonneg pol C (preRec trxs today pol p w) hC hpre0
  have h1 := capStep_bound pol C (preRec trxs today pol p w) hp hC
  have h2 := packStep_bound pol (capStep pol C (preRec trxs today pol p w)) hcap0
  have tri := abs_sub_le (packStep pol (capStep pol C (preRec trxs today pol p w)))
    (capStep pol C (preRec trxs today pol p w)) C
  have hmax : pol.maxChangePercent / 100 * C ≤ pol.maxChangePercent / 100 * max 1 C :=
    mul_le_mul_of_nonneg_left (le_max_right 1 C) (by positivity)
  rw [abs_sub_comm] at h2
  linarith [abs_sub_comm (packStep pol (capStep pol C (preRec trxs today pol p w)))
    (capStep pol C (preRec trxs today pol p w))]

/-- C2 witness: the bound applied at a concrete default-policy snapshot
with current safety stock 10. -/
theorem C2_witness :
    0 < ({} : SafetyStockPolicy).maxChangePercent ∧ (0 : ℚ) ≤ 10 ∧
      |recommendedFor [] 0 {} "P1" "W1" 10 - 10| ≤
        ({} : SafetyStockPolicy).maxChangePercent / 100 * max 1 10 + 1 / 2 + packSlack {} :=
  ⟨by norm_num, by norm_num, C2_cap_bound [] 0 {} "P1" "W1" 10 (by norm_num) (by norm_num)⟩

/-- C2 counterexample: with the default cap of 20 percent, pack size 10
and current safety stock 0, the engine recommends a full pack of 10, so
`|R − C| = 10` exceeds the cap `p/100 · max(1, C) = 1/5` even after
allowing a half-unit and a half-pack of rounding tolerance. -/
theorem C2_counterexample :
    recommendedFor [] 0 { roundToPack := some 10 } "P1" "W1" 0 = 10 ∧
      0 < ({ roundToPack := some 10 } : SafetyStockPolicy).maxChangePercent ∧
      ¬ (|(10 : ℚ) - 0| ≤ 20 / 100 * max 1 0 + 1 / 2 + 10 / 2) := by
  refine ⟨?_, by norm_num, by norm_num⟩
  rw [recommendedFor_of_var_zero [] 0 { roundToPack := some 10 } "P1" "W1" 0
    (varDaily_of_replicate [] 0 "P1" "W1" (dailySeries_nil 0 "P1" "W1"))]
  unfold packStep capStep
  norm_num [round_eq]

/-! ### Claim C4 -/

lemma updateOne_warehouseId (trxs : List Trx) (today : ℤ) (pol : SafetyStockPolicy)
    (w : String) (b : Balance) :
    (updateOne trxs today pol w b).warehouseId = b.warehouseId := by
  unfold updateOne
  split_ifs <;> rfl

lemma updateOne_productId (trxs : List Trx) (today : ℤ) (pol : SafetyStockPolicy)
    (w : String) (b : Balance) :
    (updateOne trxs today pol w b).productId = b.productId := by
  unfold updateOne
  split_ifs <;> rfl

lemma updateOne_safetyStock (trxs : List Trx) (today : ℤ) (pol : SafetyStockPolicy)
    (w : String) (b : Balance) (h : b.warehouseId = w) :
    (updateOne trxs today pol w b).safetyStock =
      recommendedFor trxs today pol b.productId b.warehouseId b.safetyStock := by
  unfold updateOne
  rw [if_pos h]
  split_ifs with hne
  · rfl
  · exact (not_ne_iff.mp hne).symm

lemma recommendedFor_capfree {pol : SafetyStockPolicy} (hcap : pol.maxChangePercent ≤ 0)
    (trxs : List Trx) (today : ℤ) (p w : String) (C D : ℚ) :
    recommendedFor trxs today pol p w C = recommendedFor trxs today pol p w D := by
  unfold recommendedFor
  rw [capStep_of_nonpos hcap, capStep_of_nonpos hcap]

/-- C4 (amended): with the change cap disabled (`maxChangePercent ≤ 0`)
the recommendation does not depend on the current value, so a second run
on the snapshot produced by the first run applies zero further changes;
with an active cap the clamp ratchets toward the statistical target, so
the engine is not idempotent in general. -/
theorem C4_second_run_applies_nothing (trxs : List Trx) (today : ℤ) (pol : SafetyStockPolicy)
    (w : String) (balances : List Balance) (hcap : pol.maxChangePercent ≤ 0) :
    appliedCountFor trxs today pol w (writeBack trxs today pol w balances) = 0 := by
  unfold appliedCountFor writeBack
  rw [List.countP_eq_zero]
  intro b hb
  simp only [List.mem_filter, List.mem_map] at hb
  obtain ⟨⟨a, _, rfl⟩, hw⟩ := hb
  have hw2 : a.warehouseId = w := by
    have := of_decide_eq_true hw
    rwa [updateOne_warehouseId] at this
  simp only [decide_eq_true_eq, not_ne_iff]
  rw [updateOne_productId, updateOne_warehouseId, updateOne_safetyStock trxs today pol w a hw2]
  exact recommendedFor_capfree hcap trxs today a.productId a.warehouseId _ _

/-- C4 witness: a concrete snapshot with the cap disabled where the second
run applies zero changes. -/
theorem C4_witness :
    ({ maxChangePercent := 0 } : SafetyStockPolicy).maxChangePercent ≤ 0 ∧
      appliedCountFor [] 0 { maxChangePercent := 0 } "W1"
        (writeBack [] 0 { maxChangePercent := 0 } "W1" [⟨"W1", "P1", 0, 100⟩]) = 0 :=
  ⟨by norm_num,
    C4_second_run_applies_nothing [] 0 { maxChangePercent := 0 } "W1"
      [⟨"W1", "P1", 0, 100⟩] (by norm_num)⟩

/-- C4 counterexample: default policy, no transactions, one balance with
current safety stock 100.  The first run writes 80 (capped collapse
toward 0), and the second run still applies one further change (to 64),
so the second-run `appliedCount` is 1, not 0. -/
theorem C4_counterexample :
    appliedCountFor [] 0 {} "W1" (writeBack [] 0 {} "W1" [⟨"W1", "P1", 0, 100⟩]) = 1 ∧
      (1 : ℕ) ≠ 0 := by
  have hv : varDaily [] 0 "P1" "W1" = 0 :=
    varDaily_of_replicate [] 0 "P1" "W1" (dailySeries_nil 0 "P1" "W1")
  have h1 : recommendedFor [] 0 {} "P1" "W1" 100 = 80 := by
    rw [recommendedFor_of_var_zero [] 0 {} "P1" "W1" 100 hv]
    unfold packStep capStep
    norm_num [round_eq]
  have h2 : recommendedFor [] 0 {} "P1" "W1" 80 = 64 := by
    rw [recommendedFor_of_var_zero [] 0 {} "P1" "W1" 80 hv]
    unfold packStep capStep
    norm_num [round_eq]
  refine ⟨?_, by norm_num⟩
  unfold writeBack updateOne
  simp only [List.map_cons, List.map_nil, h1, if_true]
  rw [if_pos (by norm_num : (80 : ℚ) ≠ 100)]
  unfold appliedCountFor
  simp only [List.filter_cons, List.filter_nil, beq_self_eq_true, if_true, List.countP_cons,
    List.countP_nil, h2]
  norm_num

/-! ### Claim C7 -/

lemma severityOf_ne_low {chg : ℚ} (h : 150 ≤ |chg|) : severityOf chg ≠ Severity.low := by
  unfold severityOf
  split_ifs with h1 h2
  · simp
  · simp
  · simp

/-- C7: with `thresholdPercentage = 150` the detector never emits an
anomaly of severity low, because the emission gate requires an absolute
change of at least 150, which always reaches the medium branch of the
severity chain. -/
theorem C7_no_low_severity (trxs : List Trx) (today : ℤ) (L : ℕ) (a : Anomaly)
    (ha : a ∈ detectUnusualTransactions trxs today L 150) :
    a.severity ≠ Severity.low := by
  unfold detectUnusualTransactions at ha
  rw [List.mem_insertionSort] at ha
  obtain ⟨key, _, heq⟩ := List.mem_filterMap.mp ha
  simp only [anomalyFor] at heq
  split_ifs at heq with h0 hthr
  rw [Option.some.injEq] at heq
  subst heq
  exact severityOf_ne_low hthr

/-- C7 witness: a concrete transaction stream in which the detector emits
a critical anomaly; its severity is not low by the theorem. -/
theorem C7_witness :
    (⟨"P1", "W1", TrxType.ISSUE, Severity.critical, 300, 10 / 7, 40 / 7,
        Cause.data_error⟩ : Anomaly) ∈
      detectUnusualTransactions
        [⟨"T1", 0, "W1", "P1", TrxType.ISSUE, 40, -40, "SO", "1"⟩,
         ⟨"T2", -8, "W1", "P1", TrxType.ISSUE, 10, -10, "SO", "2"⟩] 0 7 150 ∧
      (⟨"P1", "W1", TrxType.ISSUE, Severity.critical, 300, 10 / 7, 40 / 7,
        Cause.data_error⟩ : Anomaly).severity ≠ Severity.low := by
  have hmem : (⟨"P1", "W1", TrxType.ISSUE, Severity.critical, 300, 10 / 7, 40 / 7,
      Cause.data_error⟩ : Anomaly) ∈
      detectUnusualTransactions
        [⟨"T1", 0, "W1", "P1", TrxType.ISSUE, 40, -40, "SO", "1"⟩,
         ⟨"T2", -8, "W1", "P1", TrxType.ISSUE, 10, -10, "SO", "2"⟩] 0 7 150 := by
    unfold detectUnusualTransactions
    rw [List.mem_insertionSort]
    refine List.mem_filterMap.mpr ⟨("P1", "W1", TrxType.ISSUE), ?_, ?_⟩
    · rw [List.mem_dedup]
      refine List.mem_map.mpr ⟨⟨"T1", 0, "W1", "P1", TrxType.ISSUE, 40, -40, "SO", "1"⟩, ?_, rfl⟩
      simp [recentWindow, List.filter_cons]
    · norm_num [anomalyFor, calcAvg, tupleFilter, recentWindow, baselineWindow,
        severityOf, causeFor, hasDupOf, dupKeyOf, maxDailyOf, dayKeys, dayQtySum,
        List.filter_cons, List.filter_nil, List.map_cons, List.map_nil,
        List.count_cons, List.count_nil, List.any_cons, List.any_nil,
        List.foldl_cons, List.foldl_nil, List.sum_cons, List.sum_nil,
        List.dedup_cons_of_not_mem, List.dedup_nil,
        Bool.and_eq_true, decide_eq_true_eq, beq_iff_eq,
        Option.some.injEq, Anomaly.mk.injEq, Prod.mk.injEq]
  exact ⟨hmem, C7_no_low_severity _ 0 7 _ hmem⟩

/-! ### Claim C6 -/

/-- C6: a (product, warehouse, ISSUE) tuple with recent average 30,
baseline average 10, no duplicate reference keys in the recent window and
no recent day above five times the recent daily average is emitted as an
anomaly with change percentage 200, severity high and probable cause
demand spike. -/
theorem C6_demand_spike (trxs : List Trx) (today : ℤ) (L : ℕ) (p w : String)
    (h1 : calcAvg (recentWindow trxs today L) p w TrxType.ISSUE L = 30)
    (h2 : calcAvg (baselineWindow trxs today L) p w TrxType.ISSUE L = 10)
    (h3 : hasDupOf (tupleFilter (recentWindow trxs today L) p w TrxType.ISSUE) = false)
    (h4 : maxDailyOf (tupleFilter (recentWindow trxs today L) p w TrxType.ISSUE) ≤ 150) :
    ∃ a ∈ detectUnusualTransactions trxs today L 150,
      a.productId = p ∧ a.warehouseId = w ∧ a.trxType = TrxType.ISSUE ∧
        a.changePercentage = 200 ∧ a.severity = Severity.high ∧
        a.probableCause = Cause.demand_spike := by
  have hne : tupleFilter (recentWindow trxs today L) p w TrxType.ISSUE ≠ [] := by
    intro hnil
    rw [calcAvg, if_pos hnil] at h1
    norm_num at h1
  obtain ⟨t, ht⟩ := List.exists_mem_of_ne_nil _ hne
  have htc := List.mem_filter.mp ht
  obtain ⟨htp, htw, htty⟩ : t.productId = p ∧ t.warehouseId = w ∧ t.trxType = TrxType.ISSUE := by
    have := htc.2
    simp only [Bool.and_eq_true, beq_iff_eq] at this
    exact ⟨this.1.1, this.1.2, this.2⟩
  have hkey : (p, w, TrxType.ISSUE) ∈
      ((recentWindow trxs today L).map (fun t => (t.productId, t.warehouseId, t.trxType))).dedup := by
    rw [List.mem_dedup]
    exact List.mem_map.mpr ⟨t, htc.1, by rw [htp, htw, htty]⟩
  have h4x : ¬ ((150 : ℚ) <
      maxDailyOf (tupleFilter (recentWindow trxs today L) p w TrxType.ISSUE)) :=
    not_lt.mpr h4
  have hsome : anomalyFor trxs today L 150 (p, w, TrxType.ISSUE) =
      some ⟨p, w, TrxType.ISSUE, Severity.high, 200, 10, 30, Cause.demand_spike⟩ := by
    simp only [anomalyFor, causeFor, severityOf]
    rw [h1, h2, h3]
    norm_num [h4x]
  refine ⟨⟨p, w, TrxType.ISSUE, Severity.high, 200, 10, 30, Cause.demand_spike⟩, ?_, ?_⟩
  · unfold detectUnusualTransactions
    rw [List.mem_insertionSort]
    exact List.mem_filterMap.mpr ⟨(p, w, TrxType.ISSUE), hkey, hsome⟩
  · exact ⟨rfl, rfl, rfl, rfl, rfl, rfl⟩

/-- C6 witness: a concrete stream with recent average 30 (spread over two
days of 105 each so that no day exceeds five times the average), baseline
average 10 and no duplicate references; the detector emits the high
demand-spike anomaly with change percentage 200. -/
theorem C6_witness :
    calcAvg (recentWindow
        [⟨"T1", 0, "W1", "P1", TrxType.ISSUE, 105, -105, "SO", "1"⟩,
         ⟨"T2", -1, "W1", "P1", TrxType.ISSUE, 105, -105, "SO", "2"⟩,
         ⟨"T3", -8, "W1", "P1", TrxType.ISSUE, 70, -70, "SO", "3"⟩] 0 7) "P1" "W1"
      TrxType.ISSUE 7 = 30 ∧
    calcAvg (baselineWindow
        [⟨"T1", 0, "W1", "P1", TrxType.ISSUE, 105, -105, "SO", "1"⟩,
         ⟨"T2", -1, "W1", "P1", TrxType.ISSUE, 105, -105, "SO", "2"⟩,
         ⟨"T3", -8, "W1", "P1", TrxType.ISSUE, 70, -70, "SO", "3"⟩] 0 7) "P1" "W1"
      TrxType.ISSUE 7 = 10 ∧
    ∃ a ∈ detectUnusualTransactions
        [⟨"T1", 0, "W1", "P1", TrxType.ISSUE, 105, -105, "SO", "1"⟩,
         ⟨"T2", -1, "W1", "P1", TrxType.ISSUE, 105, -105, "SO", "2"⟩,
         ⟨"T3", -8, "W1", "P1", TrxType.ISSUE, 70, -70, "SO", "3"⟩] 0 7 150,
      a.productId = "P1" ∧ a.warehouseId = "W1" ∧ a.trxType = TrxType.ISSUE ∧
        a.changePercentage = 200 ∧ a.severity = Severity.high ∧
        a.probableCause = Cause.demand_spike := by
  have h1 : calcAvg (recentWindow
      [⟨"T1", 0, "W1", "P1", TrxType.ISSUE, 105, -105, "SO", "1"⟩,
       ⟨"T2", -1, "W1", "P1", TrxType.ISSUE, 105, -105, "SO", "2"⟩,
       ⟨"T3", -8, "W1", "P1", TrxType.ISSUE, 70, -70, "SO", "3"⟩] 0 7) "P1" "W1"
      TrxType.ISSUE 7 = 30 := by
    norm_num [calcAvg, tupleFilter, recentWindow, List.filter_cons, List.filter_nil,
      List.map_cons, List.map_nil, List.sum_cons, List.sum_nil,
      Bool.and_eq_true, decide_eq_true_eq, beq_iff_eq]
    decide
  have h2 : calcAvg (baselineWindow
      [⟨"T1", 0, "W1", "P1", TrxType.ISSUE, 105, -105, "SO", "1"⟩,
       ⟨"T2", -1, "W1", "P1", TrxType.ISSUE, 105, -105, "SO", "2"⟩,
       ⟨"T3", -8, "W1", "P1", TrxType.ISSUE, 70, -70, "SO", "3"⟩] 0 7) "P1" "W1"
      TrxType.ISSUE 7 = 10 := by
    norm_num [calcAvg, tupleFilter, baselineWindow, List.filter_cons, List.filter_nil,
      List.map_cons, List.map_nil, List.sum_cons, List.sum_nil,
      Bool.and_eq_true, decide_eq_true_eq, beq_iff_eq]
  have h3 : hasDupOf (tupleFilter (recentWindow
      [⟨"T1", 0, "W1", "P1", TrxType.ISSUE, 105, -105, "SO", "1"⟩,
       ⟨"T2", -1, "W1", "P1", TrxType.ISSUE, 105, -105, "SO", "2"⟩,
       ⟨"T3", -8, "W1", "P1", TrxType.ISSUE, 70, -70, "SO", "3"⟩] 0 7) "P1" "W1"
      TrxType.ISSUE) = false := by
    norm_num [hasDupOf, dupKeyOf, tupleFilter, recentWindow, List.filter_cons, List.filter_nil,
      List.map_cons, List.map_nil, List.any_cons, List.any_nil,
      List.count_cons, List.count_nil,
      Bool.and_eq_true, decide_eq_true_eq, beq_iff_eq, Prod.mk.injEq]
    decide
  have h4 : maxDailyOf (tupleFilter (recentWindow
      [⟨"T1", 0, "W1", "P1", TrxType.ISSUE, 105, -105, "SO", "1"⟩,
       ⟨"T2", -1, "W1", "P1", TrxType.ISSUE, 105, -105, "SO", "2"⟩,
       ⟨"T3", -8, "W1", "P1", TrxType.ISSUE, 70, -70, "SO", "3"⟩] 0 7) "P1" "W1"
      TrxType.ISSUE) ≤ 150 := by
    norm_num [maxDailyOf, dayKeys, dayQtySum, tupleFilter, recentWindow,
      List.filter_cons, List.filter_nil, List.map_cons, List.map_nil,
      List.dedup_cons_of_not_mem, List.dedup_nil, List.foldl_cons, List.foldl_nil,
      List.sum_cons, List.sum_nil,
      Bool.and_eq_true, decide_eq_true_eq, beq_iff_eq]
  exact ⟨h1, h2, C6_demand_spike _ 0 7 "P1" "W1" h1 h2 h3 h4⟩

/-! ### Claim C9 -/

lemma countP_four_categories (l : List PerfData) :
    l.countP (fun d => d.performanceCategory == PerfCategory.Star) +
      l.countP (fun d => d.performanceCategory == PerfCategory.CashCow) +
      l.countP (fun d => d.performanceCategory == PerfCategory.QuestionMark) +
      l.countP (fun d => d.performanceCategory == PerfCategory.Dog) = l.length := by
  induction l with
  | nil => simp
  | cons d t ih =>
    simp only [List.countP_cons, List.length_cons]
    cases h : d.performanceCategory <;> simp [h] <;> omega

/-- C9: BCG classification is a total partition: for every input, the
four quadrant counts of the classifier summary sum to the number of
evaluated products, each of which carries exactly one of the four
category labels. -/
theorem C9_partition (trxs : List Trx) (balances : List Balance) (products : List Product)
    (poItems : List POItem) (wFil cFil : Option String) (today : ℤ) (days : ℕ) :
    (perfSummaryOf trxs balances products poItems wFil cFil today days).stars +
      (perfSummaryOf trxs balances products poItems wFil cFil today days).cashCows +
      (perfSummaryOf trxs balances products poItems wFil cFil today days).questionMarks +
      (perfSummaryOf trxs balances products poItems wFil cFil today days).dogs =
      (perfProductsOf trxs balances products poItems wFil cFil today days).length := by
  unfold perfSummaryOf
  exact countP_four_categories _

/-! ### Claim C8 -/

/-- C8 (amended): the classifier ignores the active flag entirely: its
output is unchanged under any rewriting of the products' `isActive`
field, so inactive products are evaluated exactly like active ones
(subject only to the category filter, the existence of matching balances
and a nonzero average on hand). -/
theorem C8_active_flag_ignored (trxs : List Trx) (balances : List Balance)
    (products : List Product) (poItems : List POItem) (wFil cFil : Option String)
    (today : ℤ) (days : ℕ) (f : Product → Bool) :
    perfProductsOf trxs balances (products.map (fun pr => { pr with isActive := f pr }))
        poItems wFil cFil today days =
      perfProductsOf trxs balances products poItems wFil cFil today days := by
  have hraw : perfRawData trxs balances (products.map (fun pr => { pr with isActive := f pr }))
      poItems wFil cFil today days =
      perfRawData trxs balances products poItems wFil cFil today days := by
    unfold perfRawData
    rw [List.filterMap_map]
    rfl
  unfold perfProductsOf
  rw [hraw]

/-- C8 counterexample: a product whose active flag is false still appears
in the classifier output (here as the only evaluated product), so the
claim that inactive products never appear is false. -/
theorem C8_counterexample :
    (perfProductsOf [] [⟨"W1", "P1", 5, 0⟩] [⟨"P1", "SKU1", "N1", "ALAT", false⟩]
        [] none none 0 30).map (fun d => d.productId) = ["P1"] ∧
      (⟨"P1", "SKU1", "N1", "ALAT", false⟩ : Product).isActive = false := by
  refine ⟨?_, rfl⟩
  norm_num [perfProductsOf, perfRawData, medianBy, categoryOf, catOk, filteredBalancesOf,
    totalIssuedOf, latestUnitCostOf, sortQ, List.insertionSort, List.orderedInsert,
    List.filterMap_cons, List.filterMap_nil, List.filter_cons, List.filter_nil,
    List.map_cons, List.map_nil, List.sum_cons, List.sum_nil, List.find?,
    Bool.and_eq_true, decide_eq_true_eq, beq_iff_eq]

/-! ### Claim C10 -/

lemma simStep_freq_le_days (s : SimState) (t : Trx)
    (h : s.frequency ≤ s.stockoutDays) :
    (simStep s t).frequency ≤ (simStep s t).stockoutDays := by
  simp only [simStep]
  split_ifs <;> simp_all <;> omega

lemma foldl_simStep_freq_le_days (l : List Trx) :
    ∀ s : SimState, s.frequency ≤ s.stockoutDays →
      (l.foldl simStep s).frequency ≤ (l.foldl simStep s).stockoutDays := by
  induction l with
  | nil => exact fun s h => h
  | cons t ts ih => exact fun s h => ih (simStep s t) (simStep_freq_le_days s t h)

/-- C10: every returned stockout-history row satisfies
`stockoutDays ≥ frequency ≥ 1`: rows with zero detected episodes are
dropped, and the iteration that detects an episode also counts a
stockout step. -/
theorem C10_days_ge_frequency (trxs : List Trx) (balances : List Balance)
    (today : ℤ) (days : ℕ) (item : StockoutItem)
    (h : item ∈ analyzeStockoutHistory trxs balances today days) :
    1 ≤ item.frequency ∧ item.frequency ≤ item.stockoutDays := by
  unfold analyzeStockoutHistory at h
  rw [List.mem_insertionSort] at h
  obtain ⟨b, _, heq⟩ := List.mem_filterMap.mp h
  simp only [stockoutItemFor] at heq
  split_ifs at heq with hpos
  rw [Option.some.injEq] at heq
  subst heq
  exact ⟨hpos, foldl_simStep_freq_le_days _ _ (le_refl 0)⟩

/-- C10 witness: a concrete balance whose only window transaction is a
receipt of 10 against a current quantity of 5, producing one episode and
one counted stockout step. -/
theorem C10_witness :
    (⟨"P1", "W1", 1, 1, some (-1), 5, 2⟩ : StockoutItem) ∈
      analyzeStockoutHistory [⟨"T1", -1, "W1", "P1", TrxType.RECEIPT, 10, 10, "PO", "1"⟩]
        [⟨"W1", "P1", 5, 2⟩] 0 90 ∧
      1 ≤ (⟨"P1", "W1", 1, 1, some (-1), 5, 2⟩ : StockoutItem).frequency ∧
      (⟨"P1", "W1", 1, 1, some (-1), 5, 2⟩ : StockoutItem).frequency ≤
        (⟨"P1", "W1", 1, 1, some (-1), 5, 2⟩ : StockoutItem).stockoutDays := by
  have hmem : (⟨"P1", "W1", 1, 1, some (-1), 5, 2⟩ : StockoutItem) ∈
      analyzeStockoutHistory [⟨"T1", -1, "W1", "P1", TrxType.RECEIPT, 10, 10, "PO", "1"⟩]
        [⟨"W1", "P1", 5, 2⟩] 0 90 := by
    norm_num [analyzeStockoutHistory, stockoutItemFor, simulateFor, windowTrxFor, simStep,
      List.insertionSort, List.orderedInsert, List.filter_cons, List.filter_nil,
      List.filterMap_cons, List.filterMap_nil, List.foldl_cons, List.foldl_nil,
      List.reverse_cons, List.reverse_nil, Bool.and_eq_true, decide_eq_true_eq, beq_iff_eq]
  have hth := C10_days_ge_frequency _ _ 0 90 _ hmem
  exact ⟨hmem, hth.1, hth.2⟩

/-! ### Claim C5 -/

lemma simStep_running (s : SimState) (t : Trx) :
    (simStep s t).running = s.running - t.signedQty := by
  simp only [simStep]
  split_ifs <;> rfl

lemma simStep_days (s : SimState) (t : Trx) :
    (simStep s t).stockoutDays =
      s.stockoutDays + (if s.running - t.signedQty ≤ 0 then 1 else 0) := by
  simp only [simStep]
  split_ifs <;> simp_all

lemma foldl_simStep_days (l : List Trx) :
    ∀ s : SimState, (l.foldl simStep s).stockoutDays =
      s.stockoutDays + (runningSeq s.running l).countP (fun q => decide (q ≤ 0)) := by
  induction l with
  | nil => intro s; simp [runningSeq]
  | cons t ts ih =>
    intro s
    rw [List.foldl_cons, ih, runningSeq]
    rw [List.countP_cons, simStep_days, simStep_running]
    by_cases h : s.running - t.signedQty ≤ 0 <;> simp [h]
    omega

/-- C5 (amended): the `stockoutDays` counter of the backward simulation
equals the number of processed (reversed) transactions after which the
reconstructed running quantity was at or below zero, one count per
transaction, not one count per simulated day. -/
theorem C5_stockoutDays_counts_transactions (trxs : List Trx) (today : ℤ) (days : ℕ)
    (b : Balance) :
    (simulateFor trxs today days b).stockoutDays =
      (runningSeq b.qtyOnHand ((windowTrxFor trxs today days b).reverse)).countP
        (fun q => decide (q ≤ 0)) := by
  unfold simulateFor
  rw [foldl_simStep_days]
  simp

/-- C5 counterexample: with two same-day receipts reversed from a current
quantity of 1, the returned `stockoutDays` is 2 (one per transaction)
while the reconstructed quantity is at or below zero on exactly one
distinct simulated day, so `stockoutDays` is not a day count. -/
theorem C5_counterexample :
    (analyzeStockoutHistory
        [⟨"T1", 3, "W1", "P1", TrxType.RECEIPT, 5, 5, "PO", "1"⟩,
         ⟨"T2", 3, "W1", "P1", TrxType.RECEIPT, 5, 5, "PO", "2"⟩]
        [⟨"W1", "P1", 1, 0⟩] 10 90).map (fun i => i.stockoutDays) = [2] ∧
      specStockoutDays
        [⟨"T1", 3, "W1", "P1", TrxType.RECEIPT, 5, 5, "PO", "1"⟩,
         ⟨"T2", 3, "W1", "P1", TrxType.RECEIPT, 5, 5, "PO", "2"⟩] 10 90
        ⟨"W1", "P1", 1, 0⟩ = 1 ∧
      (2 : ℕ) ≠ 1 := by
  refine ⟨?_, ?_, by norm_num⟩
  · norm_num [analyzeStockoutHistory, stockoutItemFor, simulateFor, windowTrxFor, simStep,
      List.insertionSort, List.orderedInsert, List.filter_cons, List.filter_nil,
      List.filterMap_cons, List.filterMap_nil, List.foldl_cons, List.foldl_nil,
      List.reverse_cons, List.reverse_nil, List.map_cons, List.map_nil,
      Bool.and_eq_true, decide_eq_true_eq, beq_iff_eq]
  · norm_num [specStockoutDays, runningSeq, windowTrxFor,
      List.insertionSort, List.orderedInsert, List.filter_cons, List.filter_nil,
      List.reverse_cons, List.reverse_nil, List.map_cons, List.map_nil,
      List.zip, List.zipWith, List.dedup_cons_of_mem, List.dedup_cons_of_not_mem,
      List.dedup_nil, Bool.and_eq_true, decide_eq_true_eq, beq_iff_eq]

end AgentInv
